import Mathlib

/-!
Verification of `@typed-firestore/server` (repository `0x80/firestore-typed`).

The library is a set of thin, strongly typed wrappers around the Firestore
server SDK.  We shallowly embed the runtime behaviour of the wrapper
functions: the underlying client is modelled as a function from document ids
to either an opaque client error or a snapshot (`Option T`, where `none`
means the document does not exist, matching `doc.exists = false` and
`doc.data() = undefined`).  Each accessor returns its result together with
the list of document ids it requested from the client, so that claims about
"zero underlying client calls" are expressible.
-/

namespace TypedFirestore

/-- Errors surfaced by the wrapper functions: either an invariant violation
raised by the library itself (the `invariant(doc.exists, ...)` check), or an
error of the underlying client, carried through unchanged. -/
inductive FsError (ε : Type) where
  | invariantError (msg : String)
  | clientError (e : ε)
deriving DecidableEq, Repr

/-- A typed collection reference.  `getDoc id` models
`ref.doc(id).get()`: the client either fails with an opaque error or
returns a snapshot; `none` models a snapshot with `exists = false`. -/
structure CollectionRef (ε T : Type) where
  path : String
  getDoc : String → Except ε (Option T)

/-- A Firestore transaction handle.  `txGetDoc path id` models
`tx.get(ref.doc(id))` for the collection at `path`. -/
structure FsTransaction (ε T : Type) where
  txGetDoc : String → String → Except ε (Option T)

/-- The invariant helper from `~/utils`.
Modelled from the spec: the implementation of `invariant` is not under
`src/`; per the spec, the exists-invariant throws (fails with a "not found"
condition) when its condition is false, and is a no-op otherwise. -/
def invariant {ε : Type} (cond : Bool) (msg : String) : Except (FsError ε) Unit :=
  if cond then .ok () else .error (.invariantError msg)

/-- JS truthiness test of the optional `documentId` argument
(`!documentId` is true for `undefined`, `null` and the empty string). -/
def isFalsyId : Option String → Bool
  | none => true
  | some s => s.isEmpty

/-- Embeds `getDocumentData` (src/documents/get-document-data.ts):
fetch the snapshot, require existence via `invariant`, return `doc.data()`.
The second component is the list of document ids requested from the client. -/
def getDocumentData {ε T : Type} (ref : CollectionRef ε T) (documentId : String) :
    Except (FsError ε) T × List String :=
  match ref.getDoc documentId with
  | .error e => (.error (.clientError e), [documentId])
  | .ok snap =>
    match invariant snap.isSome
        ("No document available at " ++ ref.path ++ "/" ++ documentId) with
    | .error err => (.error err, [documentId])
    | .ok _ =>
      match snap with
      | some d => (.ok d, [documentId])
      | none => (.error (.invariantError "unreachable"), [documentId])

/-- Embeds `getDocumentDataMaybe`: short-circuit on a falsy id, otherwise
fetch and return `none` for a missing document instead of failing. -/
def getDocumentDataMaybe {ε T : Type} (ref : CollectionRef ε T)
    (documentId : Option String) :
    Except (FsError ε) (Option T) × List String :=
  match documentId with
  | none => (.ok none, [])
  | some id =>
    if id.isEmpty then (.ok none, [])
    else
      match ref.getDoc id with
      | .error e => (.error (.clientError e), [id])
      | .ok none => (.ok none, [id])
      | .ok (some d) => (.ok (some d), [id])

/-- Embeds `getDocumentDataInTransaction`: as `getDocumentData` but the
snapshot is read through `tx.get`. -/
def getDocumentDataInTransaction {ε T : Type} (tx : FsTransaction ε T)
    (ref : CollectionRef ε T) (documentId : String) :
    Except (FsError ε) T × List String :=
  match tx.txGetDoc ref.path documentId with
  | .error e => (.error (.clientError e), [documentId])
  | .ok snap =>
    match invariant snap.isSome
        ("No document available at " ++ ref.path ++ "/" ++ documentId) with
    | .error err => (.error err, [documentId])
    | .ok _ =>
      match snap with
      | some d => (.ok d, [documentId])
      | none => (.error (.invariantError "unreachable"), [documentId])

/-- Embeds `getDocumentDataInTransactionMaybe`: as `getDocumentDataMaybe`
but the snapshot is read through `tx.get`. -/
def getDocumentDataInTransactionMaybe {ε T : Type} (tx : FsTransaction ε T)
    (ref : CollectionRef ε T) (documentId : Option String) :
    Except (FsError ε) (Option T) × List String :=
  match documentId with
  | none => (.ok none, [])
  | some id =>
    if id.isEmpty then (.ok none, [])
    else
      match tx.txGetDoc ref.path id with
      | .error e => (.error (.clientError e), [id])
      | .ok none => (.ok none, [id])
      | .ok (some d) => (.ok (some d), [id])

/-! ### Queries and projections (src/collections/get-first-document.ts) -/

/-- A document's raw data, a record of field name to value, as passed
through unchanged from the native client. -/
abbrev FsObj (V : Type) := List (String × V)

/-- The read-only document wrapper `FsDocument<T> = { id, data }`
(src/types, `FsDocument`). -/
structure FsDocument (T : Type) where
  id : String
  data : T
deriving DecidableEq, Repr

/-- A Firestore query, modelled by its result: either an opaque client
error or the list of `(id, data)` results in query order. -/
structure FsQuery (ε V : Type) where
  run : Except ε (List (String × FsObj V))

/-- `query.select(...fields)`: server-side field projection.  The server
returns each matching document restricted to the requested field mask
(fields absent from a document are simply absent from the result). -/
def FsQuery.select {ε V : Type} (q : FsQuery ε V) (fields : List String) :
    FsQuery ε V :=
  ⟨q.run.map (List.map (fun doc =>
    (doc.1, doc.2.filter (fun kv => fields.contains kv.1))))⟩

/-- `query.limit(n)`: cap the result list at `n` documents. -/
def FsQuery.limit {ε V : Type} (q : FsQuery ε V) (n : Nat) : FsQuery ε V :=
  ⟨q.run.map (List.take n)⟩

/-- `query.get()`: execute the query, yielding the snapshot's `docs`. -/
def FsQuery.get {ε V : Type} (q : FsQuery ε V) :
    Except ε (List (String × FsObj V)) := q.run

/-- Modelled from the spec: `makeMutableDocument` (from `~/documents`) is
not under `src/`; per the spec, document wrapper construction produces
`{ id, data }` from a fetched snapshot (the write handle is modelled
separately, see `makeMutableDocumentInTransaction`). -/
def makeMutableDocument {V : Type} (snap : String × FsObj V) :
    FsDocument (FsObj V) :=
  ⟨snap.1, snap.2⟩

/-- Embeds `getFirstDocument`: apply the optional `select` projection to
the caller-built query, cap it at one result, and return `none` on an
empty snapshot, otherwise a wrapper for `snapshot.docs[0]`. -/
def getFirstDocument {ε V : Type} (ref : CollectionRef ε (FsObj V))
    (queryFn : CollectionRef ε (FsObj V) → FsQuery ε V)
    (options : Option (List String)) :
    Except ε (Option (FsDocument (FsObj V))) :=
  let finalQuery :=
    match options with
    | some sel => (queryFn ref).select sel
    | none => queryFn ref
  match (finalQuery.limit 1).get with
  | .error e => .error e
  | .ok docs =>
    match docs with
    | [] => .ok none
    | d :: _ => .ok (some (makeMutableDocument d))

/-- Embeds `getFirstDocumentInTransaction`: identical to
`getFirstDocument` except that the capped query is executed through
`tx.get`.  The transaction is modelled by the result it yields for the
query (`txRunQuery`). -/
def getFirstDocumentInTransaction {ε V : Type}
    (txRunQuery : FsQuery ε V → Except ε (List (String × FsObj V)))
    (ref : CollectionRef ε (FsObj V))
    (queryFn : CollectionRef ε (FsObj V) → FsQuery ε V)
    (options : Option (List String)) :
    Except ε (Option (FsDocument (FsObj V))) :=
  let finalQuery :=
    match options with
    | some sel => (queryFn ref).select sel
    | none => queryFn ref
  match txRunQuery (finalQuery.limit 1) with
  | .error e => .error e
  | .ok docs =>
    match docs with
    | [] => .ok none
    | d :: _ => .ok (some (makeMutableDocument d))

/-! ### Mutable documents bound to a transaction (src/types,
`FsMutableDocumentFromTransaction`) -/

/-- The committed contents of the database: document path to data. -/
structure Store (V : Type) where
  docs : List (String × FsObj V)
deriving DecidableEq, Repr

/-- Set (or add) one field of a record. -/
def setField {V : Type} (d : FsObj V) (k : String) (v : V) : FsObj V :=
  if d.any (fun kv => kv.1 == k) then
    d.map (fun kv => if kv.1 == k then (k, v) else kv)
  else d ++ [(k, v)]

/-- Firestore `update` merge semantics: each field of the patch is set on
the existing record. -/
def mergePatch {V : Type} (d : FsObj V) (patch : FsObj V) : FsObj V :=
  patch.foldl (fun acc kv => setField acc kv.1 kv.2) d

/-- Apply one write (path, patch) to the committed store. -/
def Store.writeDoc {V : Type} (s : Store V) (path : String) (patch : FsObj V) :
    Store V :=
  ⟨s.docs.map (fun pd => if pd.1 == path then (pd.1, mergePatch pd.2 patch) else pd)⟩

/-- A transaction's write set: the writes staged so far, in staging order.
They touch the committed store only at commit. -/
structure TxContext (V : Type) where
  staged : List (String × FsObj V)
deriving DecidableEq, Repr

/-- Commit: apply the staged writes to the committed store, in order. -/
def TxContext.commit {V : Type} (tx : TxContext V) (s : Store V) : Store V :=
  tx.staged.foldl (fun st w => st.writeDoc w.1 w.2) s

/-- The mutable wrapper bound to a transaction
(`FsMutableDocumentFromTransaction<T>`): `{ id, data, ref }` plus an
`update` handle that returns the `Transaction` synchronously.  `update`
takes the current committed store and returns it together with the
transaction; a direct write would show up as a change to the store. -/
structure FsMutableDocumentFromTransaction (V : Type) where
  id : String
  data : FsObj V
  refPath : String
  update : FsObj V → Store V → Store V × TxContext V

/-- Modelled from the spec: the implementation
`makeMutableDocumentInTransaction` (from `~/documents`) is not under
`src/`; per the spec, `update` "stages the write against the bound
transaction if one is bound (deferred application at transaction commit,
not immediate)" and, per the type in src, returns the `Transaction`
synchronously.  The staged write records the document's own path. -/
def makeMutableDocumentInTransaction {V : Type} (refPath id : String)
    (data : FsObj V) (tx : TxContext V) : FsMutableDocumentFromTransaction V :=
  { id := id
    data := data
    refPath := refPath
    update := fun patch store => (store, ⟨tx.staged ++ [(refPath, patch)]⟩) }

/-! ### `isPlainObject` (src/utils) -/

/-- A JavaScript prototype, as far as `Object.getPrototypeOf` can
distinguish the cases the source cares about. -/
inductive Proto where
  | objectProto
  | nullProto
  | arrayProto
  | functionProto
  | classProto (name : String)
deriving DecidableEq, Repr

/-- A JavaScript value, as far as `typeof` and `Object.getPrototypeOf`
can observe it.  Arrays are objects with `Array.prototype`; class
instances are objects with their class prototype. -/
inductive JsValue where
  | undef
  | jsNull
  | boolean (b : Bool)
  | number (n : Int)
  | str (s : String)
  | fn (id : Nat)
  | obj (proto : Proto)
deriving DecidableEq, Repr

/-- The JS `typeof` operator on our value model. -/
def jsTypeof : JsValue → String
  | .undef => "undefined"
  | .jsNull => "object"
  | .boolean _ => "boolean"
  | .number _ => "number"
  | .str _ => "string"
  | .fn _ => "function"
  | .obj _ => "object"

/-- `Object.getPrototypeOf`, defined on objects (and on `null` it would
throw; the source only reaches it for non-null objects). -/
def getPrototypeOf : JsValue → Option Proto
  | .obj p => some p
  | _ => none

/-- Embeds `isPlainObject`: reject non-objects and `null`, then accept
exactly prototypes `Object.prototype` and `null`. -/
def isPlainObject (value : JsValue) : Bool :=
  if jsTypeof value != "object" || value == JsValue.jsNull then false
  else
    match getPrototypeOf value with
    | some proto => proto == Proto.objectProto || proto == Proto.nullProto
    | none => false

/-! ### Concrete instances used by the witnesses -/

/-- A collection in which no document exists (every read succeeds with an
absent snapshot). -/
def refEmpty : CollectionRef String Nat := ⟨"users", fun _ => .ok none⟩

/-- A transaction whose reads agree with `refEmpty`. -/
def txEmpty : FsTransaction String Nat := ⟨fun _ _ => .ok none⟩

/-- A concrete read function holding one document `"a" ↦ 7`. -/
def demoGet : String → Except String (Option Nat) :=
  fun id => if id = "a" then .ok (some 7) else .ok none

/-- A collection holding one document `"a" ↦ 7`. -/
def refDemo : CollectionRef String Nat := ⟨"users", demoGet⟩

/-- A transaction whose reads agree with `refDemo` on every collection. -/
def txDemo : FsTransaction String Nat := ⟨fun _ => demoGet⟩

/-- A collection/transaction pair whose reads always fail with a client
error. -/
def refErr : CollectionRef String Nat := ⟨"users", fun _ => .error "unavailable"⟩

/-- A transaction whose reads always fail with a client error. -/
def txErr : FsTransaction String Nat := ⟨fun _ _ => .error "unavailable"⟩

/-! ### The claims -/

/-- C1: for every non-existing document id, the required-fetch accessors
`getDocumentData` and `getDocumentDataInTransaction` fail with the
"No document available" invariant error and return no value. -/
theorem claim1_required_fetch_not_found {ε T : Type}
    (ref : CollectionRef ε T) (tx : FsTransaction ε T) (documentId : String)
    (h1 : ref.getDoc documentId = .ok none)
    (h2 : tx.txGetDoc ref.path documentId = .ok none) :
    (getDocumentData ref documentId).1 =
      .error (.invariantError
        ("No document available at " ++ ref.path ++ "/" ++ documentId)) ∧
    (getDocumentDataInTransaction tx ref documentId).1 =
      .error (.invariantError
        ("No document available at " ++ ref.path ++ "/" ++ documentId)) := by
  constructor <;>
    simp [getDocumentData, getDocumentDataInTransaction, h1, h2, invariant]

/-- Witness for C1 at the empty collection and id `"id123"`. -/
theorem claim1_witness :
    (getDocumentData refEmpty "id123").1 =
      .error (.invariantError
        ("No document available at " ++ refEmpty.path ++ "/" ++ "id123")) ∧
    (getDocumentDataInTransaction txEmpty refEmpty "id123").1 =
      .error (.invariantError
        ("No document available at " ++ refEmpty.path ++ "/" ++ "id123")) :=
  claim1_required_fetch_not_found refEmpty txEmpty "id123" rfl rfl

/-- C2: for every non-empty document id whose document does not exist, the
maybe-fetch accessors return an explicit "no value" result and do not
fail. -/
theorem claim2_maybe_fetch_missing {ε T : Type}
    (ref : CollectionRef ε T) (tx : FsTransaction ε T) (id : String)
    (hne : id.isEmpty = false)
    (h1 : ref.getDoc id = .ok none)
    (h2 : tx.txGetDoc ref.path id = .ok none) :
    (getDocumentDataMaybe ref (some id)).1 = .ok none ∧
    (getDocumentDataInTransactionMaybe tx ref (some id)).1 = .ok none := by
  constructor <;>
    simp [getDocumentDataMaybe, getDocumentDataInTransactionMaybe, hne, h1, h2]

/-- Witness for C2 at the empty collection and id `"id123"`. -/
theorem claim2_witness :
    (getDocumentDataMaybe refEmpty (some "id123")).1 = .ok none ∧
    (getDocumentDataInTransactionMaybe txEmpty refEmpty (some "id123")).1 =
      .ok none :=
  claim2_maybe_fetch_missing refEmpty txEmpty "id123" rfl rfl rfl

/-- C3: for an absent, null, or empty-string id argument, the maybe-fetch
accessors return "no value" having issued zero calls to the underlying
client. -/
theorem claim3_falsy_id_no_client_calls {ε T : Type}
    (ref : CollectionRef ε T) (tx : FsTransaction ε T)
    (documentId : Option String)
    (h : documentId = none ∨ documentId = some "") :
    getDocumentDataMaybe ref documentId = (.ok none, []) ∧
    getDocumentDataInTransactionMaybe tx ref documentId = (.ok none, []) := by
  rcases h with h | h <;> subst h <;>
    exact ⟨rfl, rfl⟩

/-- Witness for C3 at the empty-string id. -/
theorem claim3_witness :
    getDocumentDataMaybe refDemo (some "") = (.ok none, []) ∧
    getDocumentDataInTransactionMaybe txDemo refDemo (some "") =
      (.ok none, []) :=
  claim3_falsy_id_no_client_calls refDemo txDemo (some "") (Or.inr rfl)

/-- C4: for every existing document with a non-empty id, the required-fetch
and the maybe-fetch accessor return the same record. -/
theorem claim4_required_and_maybe_agree {ε T : Type}
    (ref : CollectionRef ε T) (id : String) (d : T)
    (hne : id.isEmpty = false)
    (h : ref.getDoc id = .ok (some d)) :
    (getDocumentData ref id).1 = .ok d ∧
    (getDocumentDataMaybe ref (some id)).1 = .ok (some d) := by
  constructor <;> simp [getDocumentData, getDocumentDataMaybe, hne, h, invariant]

/-- Witness for C4 at the one-document collection and id `"a"`. -/
theorem claim4_witness :
    (getDocumentData refDemo "a").1 = .ok 7 ∧
    (getDocumentDataMaybe refDemo (some "a")).1 = .ok (some 7) :=
  claim4_required_and_maybe_agree refDemo "a" 7 rfl rfl

/-- C7: when the transaction's reads agree with the plain client's reads
for a collection, the transactional accessors agree with the plain
accessors on every document id (same failures, same data, same calls). -/
theorem claim7_transactional_variants_agree {ε T : Type}
    (tx : FsTransaction ε T) (ref : CollectionRef ε T)
    (h : ∀ id, tx.txGetDoc ref.path id = ref.getDoc id) :
    (∀ id, getDocumentDataInTransaction tx ref id = getDocumentData ref id) ∧
    (∀ mid, getDocumentDataInTransactionMaybe tx ref mid =
      getDocumentDataMaybe ref mid) := by
  constructor
  · intro id
    simp [getDocumentDataInTransaction, getDocumentData, h]
  · intro mid
    cases mid with
    | none => rfl
    | some id =>
      simp [getDocumentDataInTransactionMaybe, getDocumentDataMaybe, h]

/-- Witness for C7 at the one-document collection, on an existing and a
missing id. -/
theorem claim7_witness :
    (getDocumentDataInTransaction txDemo refDemo "a" =
      getDocumentData refDemo "a") ∧
    (getDocumentDataInTransactionMaybe txDemo refDemo (some "b") =
      getDocumentDataMaybe refDemo (some "b")) :=
  ⟨(claim7_transactional_variants_agree txDemo refDemo (fun _ => rfl)).1 "a",
   (claim7_transactional_variants_agree txDemo refDemo (fun _ => rfl)).2
     (some "b")⟩

/-- A query function returning fixed results, for the witnesses. -/
def demoQueryFn (l : List (String × FsObj Nat)) :
    CollectionRef String (FsObj Nat) → FsQuery String Nat :=
  fun _ => ⟨.ok l⟩

/-- A collection of records, for the witnesses of the query claims. -/
def refBooks : CollectionRef String (FsObj Nat) := ⟨"books", fun _ => .ok none⟩

/-- A query function that fails with a client error, for the witnesses. -/
def demoQueryErr : CollectionRef String (FsObj Nat) → FsQuery String Nat :=
  fun _ => ⟨.error "unavailable"⟩

/-- C5: `getFirstDocument` caps the query at one result: an empty result
set yields "no value" without failing, and a non-empty result set yields a
wrapper for exactly the first result in query order. -/
theorem claim5_first_document_caps_at_one {ε V : Type}
    (ref : CollectionRef ε (FsObj V))
    (queryFn : CollectionRef ε (FsObj V) → FsQuery ε V)
    (l : List (String × FsObj V))
    (hq : (queryFn ref).run = .ok l) :
    (l = [] → getFirstDocument ref queryFn none = .ok none) ∧
    (∀ d rest, l = d :: rest →
      getFirstDocument ref queryFn none = .ok (some ⟨d.1, d.2⟩)) := by
  constructor
  · intro hl
    subst hl
    simp [getFirstDocument, FsQuery.limit, FsQuery.get, hq, Except.map]
  · intro d rest hl
    subst hl
    simp [getFirstDocument, FsQuery.limit, FsQuery.get, hq, Except.map,
      makeMutableDocument]

/-- Witness for C5: an empty query yields `none`; a two-document query
yields a wrapper for the first document. -/
theorem claim5_witness :
    getFirstDocument refBooks (demoQueryFn []) none = .ok none ∧
    getFirstDocument refBooks
        (demoQueryFn [("b1", [("x", 1)]), ("b2", [("x", 2)])]) none =
      .ok (some ⟨"b1", [("x", 1)]⟩) :=
  ⟨(claim5_first_document_caps_at_one refBooks (demoQueryFn []) [] rfl).1 rfl,
   (claim5_first_document_caps_at_one refBooks
      (demoQueryFn [("b1", [("x", 1)]), ("b2", [("x", 2)])])
      [("b1", [("x", 1)]), ("b2", [("x", 2)])] rfl).2
      ("b1", [("x", 1)]) [("b2", [("x", 2)])] rfl⟩

/-- C6: when every selected field occurs in the matched document, a
projected `getFirstDocument` returns data whose keys are exactly the
selected fields. -/
theorem claim6_projection_keys_exact {ε V : Type}
    (ref : CollectionRef ε (FsObj V))
    (queryFn : CollectionRef ε (FsObj V) → FsQuery ε V)
    (sel : List String) (d : String × FsObj V) (rest : List (String × FsObj V))
    (hq : (queryFn ref).run = .ok (d :: rest))
    (hsub : ∀ k, k ∈ sel → k ∈ d.2.map Prod.fst) :
    ∃ w, getFirstDocument ref queryFn (some sel) = .ok (some w) ∧
      w.id = d.1 ∧
      (∀ k, k ∈ w.data.map Prod.fst ↔ k ∈ sel) := by
  refine ⟨⟨d.1, d.2.filter (fun kv => sel.contains kv.1)⟩, ?_, rfl, ?_⟩
  · simp [getFirstDocument, FsQuery.select, FsQuery.limit, FsQuery.get, hq,
      Except.map, makeMutableDocument]
  · intro k
    constructor
    · intro hk
      rcases List.mem_map.mp hk with ⟨kv, hkv, rfl⟩
      rcases List.mem_filter.mp hkv with ⟨_, hcont⟩
      simpa using hcont
    · intro hk
      rcases List.mem_map.mp (hsub k hk) with ⟨kv, hkv, hfst⟩
      exact List.mem_map.mpr ⟨kv,
        List.mem_filter.mpr ⟨hkv, by simp [hfst, hk]⟩, hfst⟩

/-- Witness for C6: selecting `["title"]` from a document with fields
`title` and `pages` yields data with key set exactly `["title"]`. -/
theorem claim6_witness :
    ∃ w, getFirstDocument refBooks
        (demoQueryFn [("b1", [("title", 10), ("pages", 20)])])
        (some ["title"]) = .ok (some w) ∧
      w.id = "b1" ∧
      (∀ k, k ∈ w.data.map Prod.fst ↔ k ∈ ["title"]) :=
  claim6_projection_keys_exact refBooks
    (demoQueryFn [("b1", [("title", 10), ("pages", 20)])])
    ["title"] ("b1", [("title", 10), ("pages", 20)]) [] rfl
    (by decide)

/-- C8: client errors propagate unchanged through every accessor: the
required, maybe and transactional document fetches surface the client's
error verbatim, and `getFirstDocument` (with or without a projection)
returns the query's error verbatim. -/
theorem claim8_client_errors_propagate {ε T V : Type}
    (ref : CollectionRef ε T) (tx : FsTransaction ε T) (id : String) (e : ε)
    (qref : CollectionRef ε (FsObj V))
    (queryFn : CollectionRef ε (FsObj V) → FsQuery ε V) (sel : List String)
    (hne : id.isEmpty = false)
    (h1 : ref.getDoc id = .error e)
    (h2 : tx.txGetDoc ref.path id = .error e)
    (hq : (queryFn qref).run = .error e) :
    (getDocumentData ref id).1 = .error (.clientError e) ∧
    (getDocumentDataMaybe ref (some id)).1 = .error (.clientError e) ∧
    (getDocumentDataInTransaction tx ref id).1 = .error (.clientError e) ∧
    (getDocumentDataInTransactionMaybe tx ref (some id)).1 =
      .error (.clientError e) ∧
    getFirstDocument qref queryFn none = .error e ∧
    getFirstDocument qref queryFn (some sel) = .error e := by
  refine ⟨?_, ?_, ?_, ?_, ?_, ?_⟩ <;>
    simp [getDocumentData, getDocumentDataMaybe, getDocumentDataInTransaction,
      getDocumentDataInTransactionMaybe, getFirstDocument, FsQuery.select,
      FsQuery.limit, FsQuery.get, Except.map, hne, h1, h2, hq]

/-- Witness for C8 at the always-failing client. -/
theorem claim8_witness :
    (getDocumentData refErr "id123").1 = .error (.clientError "unavailable") ∧
    (getDocumentDataMaybe refErr (some "id123")).1 =
      .error (.clientError "unavailable") ∧
    (getDocumentDataInTransaction txErr refErr "id123").1 =
      .error (.clientError "unavailable") ∧
    (getDocumentDataInTransactionMaybe txErr refErr (some "id123")).1 =
      .error (.clientError "unavailable") ∧
    getFirstDocument refBooks demoQueryErr none = .error "unavailable" ∧
    getFirstDocument refBooks demoQueryErr (some ["title"]) =
      .error "unavailable" :=
  claim8_client_errors_propagate refErr txErr "id123" "unavailable"
    refBooks demoQueryErr ["title"] rfl rfl rfl rfl

/-- C9: for a mutable document wrapper bound to a transaction, `update`
returns the transaction with the write staged at the end of its write set,
leaves the committed store untouched, and the staged write takes effect
exactly at commit (after the writes staged before it). -/
theorem claim9_transactional_update_is_staged {V : Type}
    (refPath id : String) (data patch : FsObj V) (tx : TxContext V)
    (store : Store V) :
    ((makeMutableDocumentInTransaction refPath id data tx).update
        patch store).1 = store ∧
    ((makeMutableDocumentInTransaction refPath id data tx).update
        patch store).2.staged = tx.staged ++ [(refPath, patch)] ∧
    (∀ s, ((makeMutableDocumentInTransaction refPath id data tx).update
        patch store).2.commit s = Store.writeDoc (tx.commit s) refPath patch) := by
  refine ⟨rfl, rfl, ?_⟩
  intro s
  simp [makeMutableDocumentInTransaction, TxContext.commit, List.foldl_append]

/-- C10: `isPlainObject` accepts exactly the non-null objects whose
prototype is `Object.prototype` or `null`; in particular it rejects
arrays, functions and class instances, and accepts objects created with
`Object.create(null)`. -/
theorem claim10_isPlainObject_characterization :
    (∀ v, isPlainObject v = true ↔
      ∃ p, v = JsValue.obj p ∧
        (p = Proto.objectProto ∨ p = Proto.nullProto)) ∧
    isPlainObject (JsValue.obj Proto.arrayProto) = false ∧
    (∀ n, isPlainObject (JsValue.fn n) = false) ∧
    (∀ s, isPlainObject (JsValue.obj (Proto.classProto s)) = false) ∧
    isPlainObject (JsValue.obj Proto.nullProto) = true := by
  refine ⟨?_, rfl, fun n => rfl, fun s => rfl, rfl⟩
  intro v
  cases v with
  | obj p =>
    cases p <;> simp [isPlainObject, jsTypeof, getPrototypeOf]
  | _ => simp [isPlainObject, jsTypeof, getPrototypeOf]

end TypedFirestore
